import Mathlib

/-!
Shallow embedding of the Langbly python client (`src/langbly/client.py`),
covering the resilient request executor (`Langbly._request`), the error
classification (`Langbly._raise_for_status`, `Langbly._parse_retry_after`),
the backoff-delay computation (`Langbly._get_retry_delay`,
`Langbly._backoff_delay`) and the result shaping of `Langbly.translate`.

Modelling conventions:
* Python floats are modelled as exact rationals (ℚ).  Every numeric value the
  claims touch (0.5 * 2^n, the caps 10.0 and 30.0, integer-valued headers such
  as "5" and "100") is exactly representable in binary64, so the rational
  model agrees with float semantics on them.
* `httpx.Response` is modelled by the fields the client reads: the status
  code, the value of the `retry-after` header (`headers.get` is
  case-insensitive in httpx, so only the value matters), the outcome of
  `resp.json()` restricted to the two fields the client extracts
  (`error.message`, `error.status`; `none` models a raised JSON parse error),
  the raw `resp.text` and `resp.reason_phrase`.
* The transport collaborator (`self._client.request`) is a function from the
  attempt index to an outcome: a `httpx.TimeoutException`, a
  `httpx.ConnectError`, or a response.
* `max_retries` is a Python `int`, modelled as `Int` so that the post-loop
  fallback of `_request` (reachable only when `max_retries < 0`) is part of
  the model.
* Raised exceptions become values: the executor returns an `Except` outcome
  together with the trace data the claims quantify over (number of transport
  invocations, the slept delays, and whether the post-loop fallback ran).
-/

namespace Langbly

/-- Python `float(s)` on a plain decimal literal: optional sign, digits, at
most one decimal point, at least one digit overall.  (Python's `float` also
accepts whitespace, exponents, underscores, `inf`/`nan`; the client only ever
meets `Retry-After` header values, for which the decimal-literal fragment is
the faithful part.)  Returns `none` where Python raises `ValueError`. -/
def pyFloat (s : String) : Option ℚ :=
  let cs := s.toList
  let signRest : ℚ × List Char :=
    match cs with
    | '-' :: r => (-1, r)
    | '+' :: r => (1, r)
    | r => (1, r)
  let sign := signRest.1
  let rest := signRest.2
  let intPart := rest.takeWhile Char.isDigit
  let rest2 := rest.dropWhile Char.isDigit
  let digitsVal : List Char → Nat := fun l =>
    l.foldl (fun a c => a * 10 + (c.toNat - 48)) 0
  match rest2 with
  | [] =>
    if intPart.isEmpty then none
    else some (sign * (digitsVal intPart : ℚ))
  | '.' :: frac =>
    if frac.all Char.isDigit && !(intPart.isEmpty && frac.isEmpty) then
      some (sign * ((digitsVal intPart : ℚ) +
        (digitsVal frac : ℚ) / (10 ^ frac.length)))
    else none
  | _ => none

/-- The model of an `httpx.Response` as read by the client. -/
structure Response where
  /-- `resp.status_code` -/
  status : Nat
  /-- `resp.headers.get("retry-after")`: the header value when present. -/
  retryAfter : Option String
  /-- Outcome of `resp.json()` restricted to what the client extracts:
  `some (m, c)` when the body parses as JSON, where `m` models
  `err.get("error", \x7b\x7d).get("message")` being present and `c` likewise
  `error.status`; `none` models `resp.json()` raising. -/
  jsonError : Option (Option String × Option String)
  /-- `resp.text` -/
  text : String
  /-- `resp.reason_phrase` -/
  reasonPhrase : String
deriving DecidableEq

/-- `resp.is_success` in httpx: 2xx. -/
def isSuccess (status : Nat) : Bool :=
  200 ≤ status && status < 300

/-- `_RETRIABLE_STATUS_CODES = frozenset({429, 500, 502, 503, 504})`. -/
def RETRIABLE_STATUS_CODES : List Nat := [429, 500, 502, 503, 504]

/-- The Python exception hierarchy rooted at `LangblyError`.
`langblyError message status_code code` is the base class;
`RateLimitError.__init__` fixes `status_code=429, code="RATE_LIMITED"` and
adds `retry_after`; `AuthenticationError.__init__` fixes
`status_code=401, code="UNAUTHENTICATED"`. -/
inductive LangblyError where
  | langblyError (message : String) (statusCode : Nat) (code : String)
  | rateLimitError (message : String) (retryAfter : Option ℚ)
  | authenticationError (message : String)
deriving DecidableEq

/-- `self.status_code` of a raised error (set by the respective `__init__`). -/
def LangblyError.statusCode : LangblyError → Nat
  | .langblyError _ s _ => s
  | .rateLimitError _ _ => 429
  | .authenticationError _ => 401

/-- `self.code` of a raised error (set by the respective `__init__`). -/
def LangblyError.code : LangblyError → String
  | .langblyError _ _ c => c
  | .rateLimitError _ _ => "RATE_LIMITED"
  | .authenticationError _ => "UNAUTHENTICATED"

/-- `str(self)` / the `message` argument of a raised error. -/
def LangblyError.message : LangblyError → String
  | .langblyError m _ _ => m
  | .rateLimitError m _ => m
  | .authenticationError m => m

/-- The `msg`/`code` computation at the top of `Langbly._raise_for_status`:
`try: err = resp.json(); msg = err.get("error", \x7b\x7d).get("message", resp.text);
code = err.get("error", \x7b\x7d).get("status", "") except Exception:
msg = resp.text or resp.reason_phrase; code = ""`. -/
def parseErrorBody (resp : Response) : String × String :=
  match resp.jsonError with
  | some (m, c) => (m.getD resp.text, c.getD "")
  | none => ((if resp.text = "" then resp.reasonPhrase else resp.text), "")

/-- `Langbly._parse_retry_after`: the `retry-after` header parsed as a float,
`None` when the header is absent or `float` raises. -/
def parseRetryAfter (resp : Response) : Option ℚ :=
  match resp.retryAfter with
  | none => none
  | some h => pyFloat h

/-- `Langbly._raise_for_status`: classify a failing response into the raised
exception. -/
def raiseForStatus (resp : Response) : LangblyError :=
  let mc := parseErrorBody resp
  if resp.status = 401 then
    .authenticationError mc.1
  else if resp.status = 429 then
    .rateLimitError mc.1 (parseRetryAfter resp)
  else
    .langblyError mc.1 resp.status mc.2

/-- `Langbly._backoff_delay`: `min(0.5 * (2**attempt), 10.0)`. -/
def backoffDelay (attempt : Nat) : ℚ :=
  min ((0.5 : ℚ) * 2 ^ attempt) 10

/-- `Langbly._get_retry_delay`: `retry-after` header value if truthy and
parseable (capped at 30.0), else the exponential backoff formula. -/
def getRetryDelay (resp : Response) (attempt : Nat) : ℚ :=
  match resp.retryAfter with
  | some h =>
    if h = "" then min ((0.5 : ℚ) * 2 ^ attempt) 10
    else
      match pyFloat h with
      | some v => min v 30
      | none => min ((0.5 : ℚ) * 2 ^ attempt) 10
  | none => min ((0.5 : ℚ) * 2 ^ attempt) 10

/-- A transport-level fault raised by `self._client.request`. -/
inductive TransportFault where
  | timeoutException
  | connectError
deriving DecidableEq

/-- Outcome of one invocation of the transport collaborator. -/
inductive TransportResult where
  | fault (f : TransportFault)
  | response (resp : Response)
deriving DecidableEq

/-- The `LangblyError` raised by `_request` when the final attempt hits a
transport fault: message includes the total attempt count
`max_retries + 1`. -/
def faultError (f : TransportFault) (maxRetries : Int) : LangblyError :=
  match f with
  | .timeoutException =>
    .langblyError ("Request timed out after " ++ toString (maxRetries + 1)
      ++ " attempts") 0 "TIMEOUT"
  | .connectError =>
    .langblyError ("Connection failed after " ++ toString (maxRetries + 1)
      ++ " attempts") 0 "CONNECTION_ERROR"

/-- What a call of `_request` can raise: either a classified `LangblyError`,
or (only on the post-loop fallback path) the re-raised raw transport
exception `last_exc`. -/
inductive Raised where
  | classified (e : LangblyError)
  | transportExc (f : TransportFault)
deriving DecidableEq

instance : DecidableEq (Except Raised Response)
  | .ok x, .ok y =>
    if h : x = y then .isTrue (by rw [h]) else .isFalse (by simp [h])
  | .ok _, .error _ => .isFalse (by simp)
  | .error _, .ok _ => .isFalse (by simp)
  | .error x, .error y =>
    if h : x = y then .isTrue (by rw [h]) else .isFalse (by simp [h])

/-- Observable trace of one `_request` call: how many times the transport was
invoked, which delays were slept (in order), the terminal outcome, and
whether the post-loop fallback (`# Should not reach here`) executed. -/
structure ExecTrace where
  attempts : Nat
  sleeps : List ℚ
  outcome : Except Raised Response
  fellThrough : Bool
deriving DecidableEq

/-- The body of `_request`'s attempt loop, one constructor case per remaining
loop iteration.  `remaining` is the number of iterations `range` still
yields, `attempt` the current loop index, `lastExc` the `last_exc` local.
`remaining = 0` is the post-loop fallback: `raise last_exc` when set, else
`raise LangblyError("Request failed")`. -/
def requestAux (t : Nat → TransportResult) (maxRetries : Int) :
    Nat → Nat → Option TransportFault → ExecTrace
  | 0, _, lastExc =>
    match lastExc with
    | some f => ⟨0, [], .error (.transportExc f), true⟩
    | none => ⟨0, [], .error (.classified (.langblyError "Request failed" 0 "")), true⟩
  | remaining + 1, attempt, lastExc =>
    match t attempt with
    | .fault f =>
      if (attempt : Int) < maxRetries then
        let rest := requestAux t maxRetries remaining (attempt + 1) (some f)
        ⟨rest.attempts + 1, backoffDelay attempt :: rest.sleeps,
          rest.outcome, rest.fellThrough⟩
      else
        ⟨1, [], .error (.classified (faultError f maxRetries)), false⟩
    | .response resp =>
      if isSuccess resp.status then
        ⟨1, [], .ok resp, false⟩
      else if resp.status ∉ RETRIABLE_STATUS_CODES then
        ⟨1, [], .error (.classified (raiseForStatus resp)), false⟩
      else if (attempt : Int) < maxRetries then
        let rest := requestAux t maxRetries remaining (attempt + 1) lastExc
        ⟨rest.attempts + 1, getRetryDelay resp attempt :: rest.sleeps,
          rest.outcome, rest.fellThrough⟩
      else
        ⟨1, [], .error (.classified (raiseForStatus resp)), false⟩

/-- `Langbly._request`: run the attempt loop
`for attempt in range(self._max_retries + 1)` against a transport
collaborator `t`. -/
def runRequest (t : Nat → TransportResult) (maxRetries : Int) : ExecTrace :=
  requestAux t maxRetries (maxRetries + 1).toNat 0 none

/-- The `Translation` dataclass. -/
structure Translation where
  text : String
  source : String
  model : Option String
deriving DecidableEq

/-- The `text` argument of `Langbly.translate`: `Union[str, List[str]]`. -/
inductive TextInput where
  | single (s : String)
  | many (l : List String)
deriving DecidableEq

/-- One item of the response body's `data.translations` array, restricted to
the keys `translate` reads: `translatedText` (always accessed by key, a
`KeyError` elsewhere is out of scope for the claims), optional
`detectedSourceLanguage`, optional `model`. -/
structure TransItem where
  translatedText : String
  detectedSourceLanguage : Option String
  model : Option String
deriving DecidableEq

/-- Python truthiness fallback `source or ""` in
`item.get("detectedSourceLanguage", source or "")`. -/
def sourceDefault (source : Option String) : String :=
  match source with
  | none => ""
  | some s => if s = "" then "" else s

/-- The return value of `Langbly.translate` (`Translation` for a single
string input, `List[Translation]` for a list input). -/
inductive TranslateResult where
  | one (t : Translation)
  | many (l : List Translation)
deriving DecidableEq

/-- Python `IndexError`, raised unclassified by `translations[0]` on an empty
list. -/
inductive IndexError where
  | indexOutOfRange
deriving DecidableEq

/-- The result-shaping tail of `Langbly.translate`, from the parsed success
body onward: map each item of `data.translations` to a `Translation` and
return `translations[0]` when the input was a single string, else the list.
`items` is the `data["data"]["translations"]` array of the 2xx response the
executor returned. -/
def translate (text : TextInput) (source : Option String)
    (items : List TransItem) : Except IndexError TranslateResult :=
  let translations := items.map (fun item =>
    Translation.mk item.translatedText
      (item.detectedSourceLanguage.getD (sourceDefault source)) item.model)
  match text with
  | .single _ =>
    match translations with
    | [] => .error .indexOutOfRange
    | t :: _ => .ok (.one t)
  | .many _ => .ok (.many translations)

/-- A transport outcome on which the attempt loop continues when budget
remains: a transport fault, or a non-2xx response with retriable status. -/
def retriableStep : TransportResult → Bool
  | .fault _ => true
  | .response r => !isSuccess r.status && r.status ∈ RETRIABLE_STATUS_CODES

/-- One-step unfolding of the attempt loop. -/
theorem requestAux_step (t : Nat → TransportResult) (mr : Int)
    (remaining attempt : Nat) (lastExc : Option TransportFault) :
    requestAux t mr (remaining + 1) attempt lastExc =
      match t attempt with
      | .fault f =>
        if (attempt : Int) < mr then
          let rest := requestAux t mr remaining (attempt + 1) (some f)
          ⟨rest.attempts + 1, backoffDelay attempt :: rest.sleeps,
            rest.outcome, rest.fellThrough⟩
        else
          ⟨1, [], .error (.classified (faultError f mr)), false⟩
      | .response resp =>
        if isSuccess resp.status then
          ⟨1, [], .ok resp, false⟩
        else if resp.status ∉ RETRIABLE_STATUS_CODES then
          ⟨1, [], .error (.classified (raiseForStatus resp)), false⟩
        else if (attempt : Int) < mr then
          let rest := requestAux t mr remaining (attempt + 1) lastExc
          ⟨rest.attempts + 1, getRetryDelay resp attempt :: rest.sleeps,
            rest.outcome, rest.fellThrough⟩
        else
          ⟨1, [], .error (.classified (raiseForStatus resp)), false⟩ := rfl

theorem cons_map_range {α : Type} (f : Nat → α) (a n : Nat) :
    f a :: (List.range n).map (fun i => f (a + 1 + i)) =
      (List.range (n + 1)).map (fun i => f (a + i)) := by
  rw [List.range_succ_eq_map, List.map_cons, Nat.add_zero, List.map_map]
  refine congrArg _ (List.map_congr_left fun i _ => ?_)
  simp only [Function.comp_apply, Nat.succ_eq_add_one]
  congr 1
  omega

/-- Behaviour of the attempt loop when every transport invocation returns the
same retriable failing response: it spends the whole remaining budget, sleeps
the computed retry delay before each retry, and classifies the final
response. -/
theorem requestAux_retriable_const (resp : Response) (mr : Int)
    (hs : isSuccess resp.status = false)
    (hr : resp.status ∈ RETRIABLE_STATUS_CODES) :
    ∀ (rem attempt : Nat) (lastExc : Option TransportFault),
      (attempt : Int) + rem = mr →
      requestAux (fun _ => .response resp) mr (rem + 1) attempt lastExc =
        ⟨rem + 1, (List.range rem).map (fun i => getRetryDelay resp (attempt + i)),
          .error (.classified (raiseForStatus resp)), false⟩
  | 0, attempt, lastExc, hinv => by
    have hlt : ¬ ((attempt : Int) < mr) := by omega
    simp [requestAux, hs, hr, hlt]
  | rem + 1, attempt, lastExc, hinv => by
    have hlt : (attempt : Int) < mr := by omega
    have ih := requestAux_retriable_const resp mr hs hr rem (attempt + 1)
      lastExc (by push_cast at hinv ⊢; omega)
    rw [requestAux_step]
    simp only [hs, hr, hlt, Bool.false_eq_true, if_false, not_true, if_true,
      ite_true, ite_false, ih]
    exact congrArg (fun l => ExecTrace.mk (rem + 1 + 1) l
      (.error (.classified (raiseForStatus resp))) false)
      (cons_map_range (fun i => getRetryDelay resp i) attempt rem)

/-- Behaviour of the attempt loop when every transport invocation raises the
same fault: it spends the whole remaining budget, sleeps the exponential
backoff before each retry, and raises the classified timeout/connection
error whose message counts `max_retries + 1` attempts. -/
theorem requestAux_fault_const (f : TransportFault) (mr : Int) :
    ∀ (rem attempt : Nat) (lastExc : Option TransportFault),
      (attempt : Int) + rem = mr →
      requestAux (fun _ => .fault f) mr (rem + 1) attempt lastExc =
        ⟨rem + 1, (List.range rem).map (fun i => backoffDelay (attempt + i)),
          .error (.classified (faultError f mr)), false⟩
  | 0, attempt, lastExc, hinv => by
    have hlt : ¬ ((attempt : Int) < mr) := by omega
    simp [requestAux, hlt]
  | rem + 1, attempt, lastExc, hinv => by
    have hlt : (attempt : Int) < mr := by omega
    have ih := requestAux_fault_const f mr rem (attempt + 1)
      (some f) (by push_cast at hinv ⊢; omega)
    rw [requestAux_step]
    simp only [hlt, ite_true, ih]
    exact congrArg (fun l => ExecTrace.mk (rem + 1 + 1) l
      (.error (.classified (faultError f mr))) false)
      (cons_map_range (fun i => backoffDelay i) attempt rem)

/-- As long as the loop has at least one iteration left and the current index
is within budget, the loop terminates inside an iteration: the post-loop
fallback never runs and the outcome is a success or a classified error. -/
theorem requestAux_no_fallthrough (t : Nat → TransportResult) (mr : Int) :
    ∀ (rem attempt : Nat) (lastExc : Option TransportFault),
      (attempt : Int) + rem = mr + 1 → (attempt : Int) ≤ mr →
      (requestAux t mr rem attempt lastExc).fellThrough = false ∧
      ((∃ r, (requestAux t mr rem attempt lastExc).outcome = .ok r) ∨
        (∃ e, (requestAux t mr rem attempt lastExc).outcome =
          .error (.classified e)))
  | 0, attempt, lastExc, hinv, hle => by exfalso; push_cast at hinv; omega
  | rem + 1, attempt, lastExc, hinv, hle => by
    rw [requestAux_step]
    cases ht : t attempt with
    | fault f =>
      by_cases hlt : (attempt : Int) < mr
      · have ih := requestAux_no_fallthrough t mr rem (attempt + 1) (some f)
          (by push_cast at hinv ⊢; omega) (by omega)
        simpa [hlt] using ih
      · simp [hlt]
    | response resp =>
      by_cases hsc : isSuccess resp.status
      · simp [hsc]
      · by_cases hnr : resp.status ∉ RETRIABLE_STATUS_CODES
        · simp [hsc, hnr]
        · by_cases hlt : (attempt : Int) < mr
          · have ih := requestAux_no_fallthrough t mr rem (attempt + 1) lastExc
              (by push_cast at hinv ⊢; omega) (by omega)
            simpa [hsc, hnr, hlt] using ih
          · simp [hsc, hnr, hlt]

/-- If attempt `attempt + j` yields a 2xx response and every attempt before
it (from `attempt` on) is a retriable step within budget, the loop returns
that response after exactly `j + 1` further transport invocations. -/
theorem requestAux_success_at (t : Nat → TransportResult) (mr : Int)
    (resp : Response) (hs : isSuccess resp.status = true) :
    ∀ (j rem attempt : Nat) (lastExc : Option TransportFault),
      t (attempt + j) = .response resp →
      (∀ i, i < j → retriableStep (t (attempt + i)) = true) →
      (attempt : Int) + j ≤ mr →
      j ≤ rem →
      (requestAux t mr (rem + 1) attempt lastExc).attempts = j + 1 ∧
      (requestAux t mr (rem + 1) attempt lastExc).outcome = .ok resp
  | 0, rem, attempt, lastExc, ht, _hpre, _hle, _hrem => by
    rw [requestAux_step]
    rw [Nat.add_zero] at ht
    rw [ht]
    simp [hs]
  | j + 1, rem, attempt, lastExc, ht, hpre, hle, hrem => by
    match rem, hrem with
    | rem + 1, _ =>
      have hlt : (attempt : Int) < mr := by push_cast at hle ⊢; omega
      have h0 : retriableStep (t attempt) = true := by
        simpa using hpre 0 (Nat.succ_pos j)
      rw [requestAux_step]
      cases ht0 : t attempt with
      | fault f =>
        have ih := requestAux_success_at t mr resp hs j rem (attempt + 1)
          (some f) (by rw [show attempt + 1 + j = attempt + (j + 1) by omega]; exact ht)
          (fun i hi => by
            rw [show attempt + 1 + i = attempt + (i + 1) by omega]
            exact hpre (i + 1) (by omega))
          (by push_cast at hle ⊢; omega) (by omega)
        simpa [hlt] using ih
      | response r =>
        rw [ht0] at h0
        simp only [retriableStep, Bool.and_eq_true, Bool.not_eq_eq_eq_not,
          Bool.not_true, decide_eq_true_eq] at h0
        have ih := requestAux_success_at t mr resp hs j rem (attempt + 1)
          lastExc (by rw [show attempt + 1 + j = attempt + (j + 1) by omega]; exact ht)
          (fun i hi => by
            rw [show attempt + 1 + i = attempt + (i + 1) by omega]
            exact hpre (i + 1) (by omega))
          (by push_cast at hle ⊢; omega) (by omega)
        simpa [h0.1, h0.2, hlt] using ih

/-- A 503 response with no headers and empty body: a concrete retriable
failing response. -/
def resp503ex : Response := ⟨503, none, none, "", "Service Unavailable"⟩

/-- A concrete 2xx response. -/
def resp200ex : Response := ⟨200, none, some (none, none), "ok", "OK"⟩

/-- A concrete non-retriable failing response. -/
def resp404ex : Response := ⟨404, none, none, "", "Not Found"⟩

/-- C1: for every status in the retriable set \x7b429, 500, 502, 503, 504\x7d,
if the transport returns that status on every attempt, `_request` makes
exactly `max_retries + 1` transport attempts (3 when `max_retries = 2`) and
then raises the error classified from the final response. -/
theorem claim_C1 (resp : Response) (mr : Nat)
    (hr : resp.status ∈ RETRIABLE_STATUS_CODES) :
    (runRequest (fun _ => .response resp) (mr : Int)).attempts = mr + 1 ∧
    (runRequest (fun _ => .response resp) (mr : Int)).outcome =
      .error (.classified (raiseForStatus resp)) := by
  have hs : isSuccess resp.status = false := by
    simp only [RETRIABLE_STATUS_CODES, List.mem_cons, List.mem_singleton,
      List.not_mem_nil, or_false] at hr
    rcases hr with h | h | h | h | h <;> simp [isSuccess, h]
  have hrem : ((mr : Int) + 1).toNat = mr + 1 := by omega
  unfold runRequest
  rw [hrem, requestAux_retriable_const resp (mr : Int) hs hr mr 0 none
    (by push_cast; omega)]
  exact ⟨rfl, rfl⟩

/-- Witness for C1: a transport that always answers 503 with `max_retries =
2` runs 3 attempts and raises the classified error. -/
theorem claim_C1_witness :
    (runRequest (fun _ => .response resp503ex) ((2 : Nat) : Int)).attempts
      = 2 + 1 ∧
    (runRequest (fun _ => .response resp503ex) ((2 : Nat) : Int)).outcome =
      .error (.classified (raiseForStatus resp503ex)) :=
  claim_C1 resp503ex 2 (by decide)

/-- C2 as stated is false: a status code outside the retriable set need not
fail — status 200 is outside the set, yet with `max_retries = 2` the call
returns the response successfully instead of raising a classified error. -/
theorem claim_C2_counterexample :
    resp200ex.status ∉ RETRIABLE_STATUS_CODES ∧
    (runRequest (fun _ => .response resp200ex) 2).attempts = 1 ∧
    (runRequest (fun _ => .response resp200ex) 2).outcome = .ok resp200ex ∧
    ∀ e, (runRequest (fun _ => .response resp200ex) 2).outcome ≠
      .error (.classified e) := by
  refine ⟨by decide, by decide, by decide, fun e h => ?_⟩
  have hok : (runRequest (fun _ => .response resp200ex) 2).outcome =
      .ok resp200ex := by decide
  rw [hok] at h
  exact Except.noConfusion h

/-- C2 (amended): for every NON-SUCCESS status code not in the retriable set
\x7b429, 500, 502, 503, 504\x7d (in particular 400, 401, 403, 404), `_request`
makes exactly 1 transport attempt and raises the classified error
immediately, regardless of the value of `max_retries`. -/
theorem claim_C2 (resp : Response) (mr : Nat)
    (hns : isSuccess resp.status = false)
    (hnr : resp.status ∉ RETRIABLE_STATUS_CODES) :
    (runRequest (fun _ => .response resp) (mr : Int)).attempts = 1 ∧
    (runRequest (fun _ => .response resp) (mr : Int)).outcome =
      .error (.classified (raiseForStatus resp)) := by
  have hrem : ((mr : Int) + 1).toNat = mr + 1 := by omega
  unfold runRequest
  rw [hrem, requestAux_step]
  simp [hns, hnr]

/-- Witness for C2 (amended): a 404 answer with `max_retries = 2` fails on
the first attempt. -/
theorem claim_C2_witness :
    (runRequest (fun _ => .response resp404ex) ((2 : Nat) : Int)).attempts
      = 1 ∧
    (runRequest (fun _ => .response resp404ex) ((2 : Nat) : Int)).outcome =
      .error (.classified (raiseForStatus resp404ex)) :=
  claim_C2 resp404ex 2 (by decide) (by decide)

/-- C3: the retry delay before attempt `n`'s retry is
`min(0.5 * 2^n, 10.0)` without a parseable Retry-After header,
`min(parsed_value, 30.0)` with one; an unparseable header silently falls
back to the computed formula.  Concretely: attempts 0, 1, 2 without the
header wait 0.5, 1.0, 2.0 seconds; a header of `5` yields exactly 5.0 and a
header of `100` is capped at 30.0. -/
theorem claim_C3 :
    (∀ (resp : Response) (n : Nat), resp.retryAfter = none →
      getRetryDelay resp n = min ((0.5 : ℚ) * 2 ^ n) 10) ∧
    (∀ (resp : Response) (n : Nat) (h : String) (v : ℚ),
      resp.retryAfter = some h → pyFloat h = some v →
      getRetryDelay resp n = min v 30) ∧
    (∀ (resp : Response) (n : Nat) (h : String),
      resp.retryAfter = some h → pyFloat h = none →
      getRetryDelay resp n = min ((0.5 : ℚ) * 2 ^ n) 10) ∧
    (∀ resp : Response, resp.retryAfter = none →
      getRetryDelay resp 0 = 0.5 ∧ getRetryDelay resp 1 = 1 ∧
      getRetryDelay resp 2 = 2) ∧
    (∀ (resp : Response) (n : Nat), resp.retryAfter = some "5" →
      getRetryDelay resp n = 5) ∧
    (∀ (resp : Response) (n : Nat), resp.retryAfter = some "100" →
      getRetryDelay resp n = 30) := by
  have hempty : pyFloat "" = none := by simp [pyFloat, String.toList]
  refine ⟨?_, ?_, ?_, ?_, ?_, ?_⟩
  · intro resp n h
    simp [getRetryDelay, h]
  · intro resp n h v hra hv
    have hne : h ≠ "" := by
      intro he
      rw [he, hempty] at hv
      exact Option.noConfusion hv
    simp [getRetryDelay, hra, hne, hv]
  · intro resp n h hra hv
    by_cases hne : h = ""
    · simp [getRetryDelay, hra, hne]
    · simp [getRetryDelay, hra, hne, hv]
  · intro resp h
    refine ⟨?_, ?_, ?_⟩ <;> simp [getRetryDelay, h] <;> norm_num [min_def]
  · intro resp n hra
    have h5 : pyFloat "5" = some 5 := by simp [pyFloat, String.toList]
    simp [getRetryDelay, hra, h5]
    norm_num [min_def]
  · intro resp n hra
    have h100 : pyFloat "100" = some 100 := by simp [pyFloat, String.toList]
    simp [getRetryDelay, hra, h100]
    norm_num [min_def]

/-- Witness for C3: concrete delays — no header at attempts 0, 1, 2; header
`5`; header `100`; unparseable header `abc` at attempt 1. -/
theorem claim_C3_witness :
    getRetryDelay ⟨429, none, none, "", ""⟩ 0 = 0.5 ∧
    getRetryDelay ⟨429, none, none, "", ""⟩ 1 = 1 ∧
    getRetryDelay ⟨429, none, none, "", ""⟩ 2 = 2 ∧
    getRetryDelay ⟨429, some "5", none, "", ""⟩ 0 = 5 ∧
    getRetryDelay ⟨429, some "100", none, "", ""⟩ 0 = 30 ∧
    getRetryDelay ⟨429, some "abc", none, "", ""⟩ 1 =
      min ((0.5 : ℚ) * 2 ^ 1) 10 := by
  have h1 := claim_C3.2.2.2.1 ⟨429, none, none, "", ""⟩ rfl
  have h5 := claim_C3.2.2.2.2.1 ⟨429, some "5", none, "", ""⟩ 0 rfl
  have h100 := claim_C3.2.2.2.2.2 ⟨429, some "100", none, "", ""⟩ 0 rfl
  have habc := claim_C3.2.2.1 ⟨429, some "abc", none, "", ""⟩ 1 "abc" rfl
    (by simp [pyFloat, String.toList])
  exact ⟨h1.1, h1.2.1, h1.2.2, h5, h100, habc⟩

/-- C4: with a transport fault (timeout or connection failure) on every
attempt, `_request` sleeps the computed exponential backoff before each of
the `max_retries` retries and fails on the final attempt with a classified
Timeout (`code = "TIMEOUT"`) or ConnectionFailure
(`code = "CONNECTION_ERROR"`) error whose message states the total attempt
count `max_retries + 1`; in particular `max_retries = 1` with constant
timeouts yields exactly 2 attempts and a message stating "2 attempts". -/
theorem claim_C4 (f : TransportFault) (mr : Nat) :
    (runRequest (fun _ => .fault f) (mr : Int)).attempts = mr + 1 ∧
    (runRequest (fun _ => .fault f) (mr : Int)).sleeps =
      (List.range mr).map backoffDelay ∧
    (runRequest (fun _ => .fault f) (mr : Int)).outcome =
      .error (.classified (faultError f (mr : Int))) ∧
    (faultError f (mr : Int)).message =
      (match f with
        | .timeoutException => "Request timed out after "
        | .connectError => "Connection failed after ")
        ++ toString ((mr : Int) + 1) ++ " attempts" ∧
    (faultError f (mr : Int)).statusCode = 0 ∧
    (faultError f (mr : Int)).code =
      (match f with
        | .timeoutException => "TIMEOUT"
        | .connectError => "CONNECTION_ERROR") ∧
    (runRequest (fun _ => .fault .timeoutException) ((1 : Nat) : Int)).attempts
      = 2 ∧
    (runRequest (fun _ => .fault .timeoutException) ((1 : Nat) : Int)).outcome
      = .error (.classified (.langblyError
          "Request timed out after 2 attempts" 0 "TIMEOUT")) := by
  have hrem : ((mr : Int) + 1).toNat = mr + 1 := by omega
  have hrun := requestAux_fault_const f (mr : Int) mr 0 none (by push_cast; omega)
  refine ⟨?_, ?_, ?_, ?_, ?_, ?_, by decide, by decide⟩
  · unfold runRequest
    rw [hrem, hrun]
  · unfold runRequest
    rw [hrem, hrun]
    simp
  · unfold runRequest
    rw [hrem, hrun]
  · cases f <;> rfl
  · cases f <;> rfl
  · cases f <;> rfl

/-- C5: classification maps 401 to the Authentication error (status fixed
401, code fixed "UNAUTHENTICATED"), 429 to the RateLimit error (status fixed
429, code fixed "RATE_LIMITED", `retry_after` the parsed Retry-After header
or unset when absent/unparseable), and any other non-success status to the
generic error carrying the actual status, parsed code and parsed message. -/
theorem claim_C5 (resp : Response) :
    (resp.status = 401 →
      raiseForStatus resp = .authenticationError (parseErrorBody resp).1 ∧
      (raiseForStatus resp).statusCode = 401 ∧
      (raiseForStatus resp).code = "UNAUTHENTICATED") ∧
    (resp.status = 429 →
      raiseForStatus resp =
        .rateLimitError (parseErrorBody resp).1 (parseRetryAfter resp) ∧
      (raiseForStatus resp).statusCode = 429 ∧
      (raiseForStatus resp).code = "RATE_LIMITED" ∧
      (resp.retryAfter = none → parseRetryAfter resp = none) ∧
      (∀ h, resp.retryAfter = some h → parseRetryAfter resp = pyFloat h)) ∧
    (resp.status ≠ 401 → resp.status ≠ 429 → isSuccess resp.status = false →
      raiseForStatus resp =
        .langblyError (parseErrorBody resp).1 resp.status
          (parseErrorBody resp).2) := by
  refine ⟨fun h401 => ?_, fun h429 => ?_, fun hn1 hn2 _ => ?_⟩
  · rw [raiseForStatus, if_pos h401]
    exact ⟨rfl, rfl, rfl⟩
  · have hne : resp.status ≠ 401 := by rw [h429]; decide
    rw [raiseForStatus, if_neg hne, if_pos h429]
    exact ⟨rfl, rfl, rfl, fun hra => by simp [parseRetryAfter, hra],
      fun h hra => by simp [parseRetryAfter, hra]⟩
  · rw [raiseForStatus, if_neg hn1, if_neg hn2]

/-- Witness for C5: concrete classifications of a 401, a 429 with
`Retry-After: 5`, and a 500 response. -/
theorem claim_C5_witness :
    raiseForStatus ⟨401, none, some (some "Invalid API key", some "UNAUTHENTICATED"), "", ""⟩ =
      .authenticationError "Invalid API key" ∧
    raiseForStatus ⟨429, some "5", some (some "Slow down", some "RATE_LIMITED"), "", ""⟩ =
      .rateLimitError "Slow down" (some 5) ∧
    raiseForStatus ⟨500, none, some (some "boom", some "INTERNAL"), "", ""⟩ =
      .langblyError "boom" 500 "INTERNAL" := by
  have h1 := ((claim_C5
    ⟨401, none, some (some "Invalid API key", some "UNAUTHENTICATED"), "", ""⟩).1 rfl).1
  have h2 := ((claim_C5
    ⟨429, some "5", some (some "Slow down", some "RATE_LIMITED"), "", ""⟩).2.1 rfl).1
  have h3 := (claim_C5
    ⟨500, none, some (some "boom", some "INTERNAL"), "", ""⟩).2.2
    (by decide) (by decide) (by decide)
  refine ⟨h1.trans (by simp [parseErrorBody]), h2.trans ?_,
    h3.trans (by simp [parseErrorBody])⟩
  have h5 : pyFloat "5" = some 5 := by simp [pyFloat, String.toList]
  simp [parseErrorBody, parseRetryAfter, h5]

/-- C6: a 2xx response at any attempt index short-circuits the loop — the
response is returned immediately, with no further transport attempts and no
classification (the outcome is the success, not an error). -/
theorem claim_C6 (t : Nat → TransportResult) (mr : Int) (k : Nat)
    (resp : Response) (ht : t k = .response resp)
    (hs : isSuccess resp.status = true)
    (hpre : ∀ i, i < k → retriableStep (t i) = true)
    (hk : (k : Int) ≤ mr) :
    (runRequest t mr).attempts = k + 1 ∧
    (runRequest t mr).outcome = .ok resp := by
  have hmr : 0 ≤ mr := le_trans (by positivity) hk
  have hrem : (mr + 1).toNat = mr.toNat + 1 := by omega
  unfold runRequest
  rw [hrem]
  exact requestAux_success_at t mr resp hs k mr.toNat 0 none
    (by simpa using ht) (fun i hi => by simpa using hpre i hi)
    (by push_cast; omega) (by omega)

/-- Witness for C6: the transport answers 503 on attempt 0 and 200 on
attempt 1; with 3 allowed attempts the call returns after the 2nd. -/
theorem claim_C6_witness :
    (runRequest
      (fun n => if n = 0 then .response resp503ex else .response resp200ex)
      2).attempts = 1 + 1 ∧
    (runRequest
      (fun n => if n = 0 then .response resp503ex else .response resp200ex)
      2).outcome = .ok resp200ex :=
  claim_C6 (fun n => if n = 0 then .response resp503ex else .response resp200ex)
    2 1 resp200ex (by decide) (by decide)
    (fun i hi => by
      have h0 : i = 0 := by omega
      subst h0
      decide)
    (by decide)

/-- C7: classification's message/code extraction: `error.message` when the
body parses as JSON and the field is present, else the raw text; on a JSON
parse failure the raw text or (when the text is empty) the status reason
phrase; the code falls back to the empty string.  The computation is total:
a parse failure is swallowed, never propagated. -/
theorem claim_C7 (resp : Response) :
    (∀ m c, resp.jsonError = some (some m, some c) →
      parseErrorBody resp = (m, c)) ∧
    (∀ c, resp.jsonError = some (none, c) →
      (parseErrorBody resp).1 = resp.text) ∧
    (∀ m, resp.jsonError = some (m, none) →
      (parseErrorBody resp).2 = "") ∧
    (resp.jsonError = none → resp.text ≠ "" →
      parseErrorBody resp = (resp.text, "")) ∧
    (resp.jsonError = none → resp.text = "" →
      parseErrorBody resp = (resp.reasonPhrase, "")) := by
  refine ⟨fun m c h => ?_, fun c h => ?_, fun m h => ?_,
    fun h ht => ?_, fun h ht => ?_⟩
  · simp [parseErrorBody, h]
  · simp [parseErrorBody, h]
  · cases m <;> simp [parseErrorBody, h]
  · simp [parseErrorBody, h, ht]
  · simp [parseErrorBody, h, ht]

/-- Witness for C7: concrete extractions — a parsed body with both fields, a
parsed body missing them, a parse failure with non-empty text, and a parse
failure with empty text. -/
theorem claim_C7_witness :
    parseErrorBody ⟨500, none, some (some "boom", some "INTERNAL"), "raw", "ISE"⟩ =
      ("boom", "INTERNAL") ∧
    (parseErrorBody ⟨500, none, some (none, none), "raw", "ISE"⟩).1 = "raw" ∧
    (parseErrorBody ⟨500, none, some (none, none), "raw", "ISE"⟩).2 = "" ∧
    parseErrorBody ⟨500, none, none, "raw", "ISE"⟩ = ("raw", "") ∧
    parseErrorBody ⟨500, none, none, "", "ISE"⟩ = ("ISE", "") :=
  ⟨(claim_C7 _).1 "boom" "INTERNAL" rfl,
    (claim_C7 ⟨500, none, some (none, none), "raw", "ISE"⟩).2.1 none rfl,
    (claim_C7 ⟨500, none, some (none, none), "raw", "ISE"⟩).2.2.1 none rfl,
    (claim_C7 ⟨500, none, none, "raw", "ISE"⟩).2.2.2.1 rfl (by decide),
    (claim_C7 ⟨500, none, none, "", "ISE"⟩).2.2.2.2 rfl rfl⟩

/-- C8: with a non-negative `max_retries`, every `_request` call has exactly
one terminal outcome — a successful response or one classified error raised
inside the attempt loop — and the post-loop fallback never executes. -/
theorem claim_C8 (t : Nat → TransportResult) (mr : Int) (hmr : 0 ≤ mr) :
    (runRequest t mr).fellThrough = false ∧
    ((∃ r, (runRequest t mr).outcome = .ok r) ∨
      (∃ e, (runRequest t mr).outcome = .error (.classified e))) := by
  unfold runRequest
  exact requestAux_no_fallthrough t mr (mr + 1).toNat 0 none
    (by push_cast; omega) (by omega)

/-- Witness for C8: the constant-503 transport with `max_retries = 2` never
reaches the fallback and ends in a classified error. -/
theorem claim_C8_witness :
    (runRequest (fun _ => .response resp503ex) 2).fellThrough = false ∧
    ((∃ r, (runRequest (fun _ => .response resp503ex) 2).outcome = .ok r) ∨
      (∃ e, (runRequest (fun _ => .response resp503ex) 2).outcome =
        .error (.classified e))) :=
  claim_C8 (fun _ => .response resp503ex) 2 (by decide)

/-- The truthiness fallback `source or ""` coincides with defaulting an
absent source to the empty string. -/
theorem sourceDefault_eq_getD (source : Option String) :
    sourceDefault source = source.getD "" := by
  cases source with
  | none => rfl
  | some s =>
    by_cases h : s = "" <;> simp [sourceDefault, h]

/-- C9: on success, a single-string input yields a single `Translation`
(the first response item), a list input yields the list of `Translation`s in
the order of the response items; each `Translation.source` is the item's
`detectedSourceLanguage`, falling back to the requested `source` argument or
the empty string when both are absent. -/
theorem claim_C9 :
    (∀ (s : String) (source : Option String) (it : TransItem)
        (rest : List TransItem),
      translate (.single s) source (it :: rest) =
        .ok (.one (Translation.mk it.translatedText
          (it.detectedSourceLanguage.getD (source.getD "")) it.model))) ∧
    (∀ (l : List String) (source : Option String) (items : List TransItem),
      translate (.many l) source items =
        .ok (.many (items.map (fun it => Translation.mk it.translatedText
          (it.detectedSourceLanguage.getD (source.getD "")) it.model)))) := by
  constructor
  · intro s source it rest
    simp [translate, sourceDefault_eq_getD]
  · intro l source items
    simp [translate, sourceDefault_eq_getD]

/-- C10: a 2xx response whose `data.translations` array is empty makes
`translate` on a single-string input raise a Python `IndexError` at
`translations[0]` — an unclassified error, not a `LangblyError`. -/
theorem claim_C10 (s : String) (source : Option String) :
    translate (.single s) source [] = .error .indexOutOfRange := rfl

end Langbly
